import Mathlib

/-!
Shallow embedding of the protocol-dispatch and tool-registry core of the
gsc-mcp-cloud repository (src/sseStdioHandler.ts, src/tools/index.ts,
src/tools/gscActions.ts and the per-tool schema declarations), together
with proofs of the behavioural properties stated in the specification.

Conventions of the embedding:
* JSON values are the inductive `JValue`; JavaScript `undefined` is
  represented by `Option` at the use sites that can observe it.
* The JavaScript `Map` used for `this.tools` is an insertion-ordered
  association list; `Map.set` overwrites in place (`mapSet`).
* Thrown JavaScript errors are `Exn` records `(name, message, stack)`;
  the falsy fallbacks `error.message || "Internal error"` and
  `error.name || "Error"` are modelled on the empty string, which is the
  only falsy value of the string type.
* zod schemas are modelled by the AST `ZodTy`, keeping the wrapper
  structure (`ZodOptional`, `ZodDefault`, `ZodEffects`) explicit, because
  `getZodType` in the handler inspects the outermost `_def.typeName`.
* Numeric JSON values are modelled as `Int`; every numeric literal in the
  repository's schemas and data is integral.
-/

namespace GscMcp

/-- JSON values (the payloads travelling through the dispatcher). -/
inductive JValue where
  | str (s : String)
  | num (n : Int)
  | bool (b : Bool)
  | null
  | arr (elems : List JValue)
  | obj (fields : List (String × JValue))
deriving Repr, BEq

/-- Association-list lookup, the semantics of reading a key of a JS object
or of `Map.get` on string keys. -/
def assocLookup (m : List (String × α)) (k : String) : Option α :=
  match m with
  | [] => none
  | (k', v) :: rest => if k' = k then some v else assocLookup rest k

/-- `Map.set` semantics: overwrite in place when the key is present,
append otherwise (JS `Map` preserves first-insertion order). -/
def mapSet (m : List (String × α)) (k : String) (v : α) : List (String × α) :=
  match m with
  | [] => [(k, v)]
  | (k', v') :: rest => if k' = k then (k, v) :: rest else (k', v') :: mapSet rest k v

/-- JS member access `o.k` on an arbitrary value: a key of an object,
`undefined` on every non-object. -/
def jget (v : JValue) (k : String) : Option JValue :=
  match v with
  | .obj fields => assocLookup fields k
  | _ => none

/-- JS truthiness on JSON values (`false`, `0`, `""` and `null` are falsy). -/
def jsTruthy : JValue → Bool
  | .str s => s ≠ ""
  | .num n => n ≠ 0
  | .bool b => b
  | .null => false
  | .arr _ => true
  | .obj _ => true

/-- JS template-literal stringification of the values the handler
interpolates into error messages (arrays join with commas, objects print
as the generic object tag). -/
def jsTemplateStr : JValue → String
  | .str s => s
  | .num n => toString n
  | .bool b => if b then "true" else "false"
  | .null => "null"
  | .arr elems => String.intercalate "," (elems.attach.map fun x => jsTemplateStr x.1)
  | .obj _ => "[object Object]"
decreasing_by
  have := List.sizeOf_lt_of_mem x.2
  simp only [JValue.arr.sizeOf_spec]
  omega

/-- `${v}` where `v` may be `undefined`. -/
def jsTemplateStrOpt : Option JValue → String
  | none => "undefined"
  | some v => jsTemplateStr v

/-- A thrown JavaScript error as observed by the handler's catch blocks:
`name`, `message` and the optional `stack`.  The platform-generated stack
text is abstracted as `none` for errors constructed inside the core. -/
structure Exn where
  name : String
  message : String
  stack : Option String := none
deriving Repr, BEq

/-- `Error.prototype.toString()`: `name`, `message`, or `name: message`. -/
def Exn.toStr (e : Exn) : String :=
  if e.name = "" then e.message
  else if e.message = "" then e.name
  else e.name ++ ": " ++ e.message

/-- An `Error` thrown with `new Error(msg)` (its `name` is `"Error"`). -/
def mkError (msg : String) : Exn := { name := "Error", message := msg }

/-! ## The zod schema model

Only the combinators the repository's tool schemas use are modelled:
`z.string` / `z.number` (with `min`, `max`, a comma-separated-token
`regex` and custom `required_error` / `invalid_type_error` messages),
`z.enum`, `z.boolean`, `.optional()`, `.default(v)`, `.refine(...)`
(a starts-with-any-prefix refinement) and `.describe(d)`.  `.describe`
copies `_def` and stores the description on the outermost node, so the
description lives beside the type in `ZodValue`. -/

/-- Refinement checks attached to a `z.string()` / `z.number()` chain.
`regexCommaSepOf allowed` is the semantics of the one regex appearing in
the repository, `^(query|page|device|country|date)(,(...))*$`: a
non-empty comma-separated sequence of tokens from a fixed set. -/
inductive ZCheck where
  | minLen (n : Nat) (msg : String)
  | minNum (n : Int) (msg : String)
  | maxNum (n : Int) (msg : String)
  | regexCommaSepOf (allowed : List String) (msg : String)
  | regexDate (msg : String)
  | urlCheck (msg : String)
deriving Repr, BEq

/-- A `.refine` predicate; the only one in the repository checks that a
string starts with one of a list of prefixes. -/
inductive ZRefine where
  | startsWithAny (prefixes : List String) (msg : String)
deriving Repr, BEq

/-- The custom message options of `z.string({...})` / `z.number({...})`. -/
structure ZOpts where
  requiredError : Option String := none
  invalidTypeError : Option String := none
deriving Repr, BEq

/-- zod type AST, wrappers kept explicit. -/
inductive ZodTy where
  | zstring (opts : ZOpts) (checks : List ZCheck)
  | znumber (opts : ZOpts) (checks : List ZCheck)
  | zboolean
  | zenum (values : List String)
  | zoptional (inner : ZodTy)
  | zdefault (inner : ZodTy) (defaultVal : JValue)
  | zeffects (inner : ZodTy) (refinement : ZRefine)
deriving Repr, BEq

/-- A field of an object schema: the zod node together with the
description stored on its outermost `_def` (empty if never described). -/
structure ZodValue where
  ty : ZodTy
  description : String := ""
deriving Repr, BEq

/-- An object schema: the ordered shape of `z.object({...})`. -/
abbrev ZodShape : Type := List (String × ZodValue)

/-- `_def.typeName` of the outermost node. -/
def typeNameOf : ZodTy → String
  | .zstring _ _ => "ZodString"
  | .znumber _ _ => "ZodNumber"
  | .zboolean => "ZodBoolean"
  | .zenum _ => "ZodEnum"
  | .zoptional _ => "ZodOptional"
  | .zdefault _ _ => "ZodDefault"
  | .zeffects _ _ => "ZodEffects"

/-- `getZodType` of the handler: map the outer `_def.typeName` to a
protocol type string; anything unrecognized (including the wrapper
type names) falls back to `"string"`. -/
def getZodType (t : ZodTy) : String :=
  match typeNameOf t with
  | "ZodString" => "string"
  | "ZodNumber" => "number"
  | "ZodBoolean" => "boolean"
  | "ZodArray" => "array"
  | "ZodObject" => "object"
  | _ => "string"

/-- `_def.values` of the outermost node: present only on a bare enum. -/
def defValues : ZodTy → Option (List String)
  | .zenum vs => some vs
  | _ => none

/-- `isOptional()`: whether the node accepts `undefined` (true for
`.optional()` and `.default(...)`; effects defer to the inner type). -/
def zIsOptional : ZodTy → Bool
  | .zoptional _ => true
  | .zdefault _ _ => true
  | .zeffects inner _ => zIsOptional inner
  | _ => false

/-- One zod issue (field path and message). -/
structure ZIssue where
  path : List String
  message : String
deriving Repr, BEq

/-- The shape `^\d\x7b4\x7d-\d\x7b2\x7d-\d\x7b2\x7d$` of the period-date regexes. -/
def isDateShaped (s : String) : Bool :=
  match s.data with
  | [a, b, c, d, h1, e, f, h2, g, h] =>
    a.isDigit && b.isDigit && c.isDigit && d.isDigit && h1 = '-' &&
    e.isDigit && f.isDigit && h2 = '-' && g.isDigit && h.isDigit
  | _ => false

/-- Approximation of the `z.string().url()` validity test (a scheme
separator and no whitespace).  The exact WHATWG-URL acceptance set is
irrelevant here: no theorem below exercises this check. -/
def isUrlShaped (s : String) : Bool :=
  decide (2 ≤ (s.splitOn "://").length) && s.data.all (fun c => !c.isWhitespace)

/-- Evaluate one chained check against an already-type-correct value. -/
def evalCheck (c : ZCheck) (v : JValue) : Bool :=
  match c, v with
  | .minLen n _, .str s => n ≤ s.length
  | .minNum n _, .num i => n ≤ i
  | .maxNum n _, .num i => i ≤ n
  | .regexCommaSepOf allowed _, .str s => (s.splitOn ",").all (· ∈ allowed)
  | .regexDate _, .str s => isDateShaped s
  | .urlCheck _, .str s => isUrlShaped s
  | _, _ => true

/-- The message of a check, surfaced when the check fails. -/
def checkMsg : ZCheck → String
  | .minLen _ m => m
  | .minNum _ m => m
  | .maxNum _ m => m
  | .regexCommaSepOf _ m => m
  | .regexDate m => m
  | .urlCheck m => m

/-- Evaluate a `.refine` predicate. -/
def evalRefine (r : ZRefine) (v : JValue) : Bool :=
  match r, v with
  | .startsWithAny ps _, .str s => ps.any (fun p => p.isPrefixOf s)
  | .startsWithAny _ _, _ => false

def refineMsg : ZRefine → String
  | .startsWithAny _ m => m

/-- Parse one field of an object schema.  The input is the raw value at
the key (`none` = key absent / `undefined`).  The output `none` means the
key is omitted from the parsed object (the missing-optional case). -/
def parseField (key : String) (t : ZodTy) (input : Option JValue) :
    Except (List ZIssue) (Option JValue) :=
  match t, input with
  | .zoptional _, none => .ok none
  | .zoptional inner, some v => parseField key inner (some v)
  | .zdefault inner d, none => parseField key inner (some d)
  | .zdefault inner _, some v => parseField key inner (some v)
  | .zeffects inner r, i =>
    match parseField key inner i with
    | .error issues => .error issues
    | .ok none => .ok none
    | .ok (some v) =>
      if evalRefine r v then .ok (some v)
      else .error [{ path := [key], message := refineMsg r }]
  | .zstring opts _, none =>
    .error [{ path := [key], message := opts.requiredError.getD "Required" }]
  | .zstring opts checks, some v =>
    match v with
    | .str _ =>
      match checks.filter (fun c => ¬ evalCheck c v) with
      | [] => .ok (some v)
      | bad => .error (bad.map fun c => { path := [key], message := checkMsg c })
    | _ =>
      .error [{ path := [key],
                message := opts.invalidTypeError.getD "Expected string, received other" }]
  | .znumber opts _, none =>
    .error [{ path := [key], message := opts.requiredError.getD "Required" }]
  | .znumber opts checks, some v =>
    match v with
    | .num _ =>
      match checks.filter (fun c => ¬ evalCheck c v) with
      | [] => .ok (some v)
      | bad => .error (bad.map fun c => { path := [key], message := checkMsg c })
    | _ =>
      .error [{ path := [key],
                message := opts.invalidTypeError.getD "Expected number, received other" }]
  | .zboolean, none => .error [{ path := [key], message := "Required" }]
  | .zboolean, some v =>
    match v with
    | .bool _ => .ok (some v)
    | _ => .error [{ path := [key], message := "Expected boolean, received other" }]
  | .zenum _, none => .error [{ path := [key], message := "Required" }]
  | .zenum vs, some v =>
    match v with
    | .str s => if s ∈ vs then .ok (some v)
                else .error [{ path := [key], message := "Invalid enum value" }]
    | _ => .error [{ path := [key], message := "Expected enum value, received other" }]

/-- Parse all fields of an object schema against a raw object, in shape
order, collecting the issues of every offending field (zod reports all of
them in one `ZodError`).  Keys of the raw object that are not in the
shape are stripped: the repository's schemas are plain `z.object`, whose
default unknown-keys policy is `"strip"`. -/
def zodParseFields (shape : ZodShape) (raw : List (String × JValue)) :
    List ZIssue × List (String × JValue) :=
  match shape with
  | [] => ([], [])
  | (key, zv) :: rest =>
    let (issues, out) := zodParseFields rest raw
    match parseField key zv.ty (assocLookup raw key) with
    | .error is => (is ++ issues, out)
    | .ok none => (issues, out)
    | .ok (some v) => (issues, (key, v) :: out)

/-- The exact rendering of `ZodError.message` (a JSON dump of the issue
list) is irrelevant to every property below; the model joins the issue
messages.  The `name` of the thrown error is `"ZodError"`. -/
def renderIssues (issues : List ZIssue) : String :=
  String.intercalate "; " (issues.map (·.message))

/-- `schema.parse(v)` for an object schema: non-objects fail with an
invalid-type error, objects are parsed field-wise; a non-empty issue list
is thrown as a `ZodError`. -/
def zodParse (shape : ZodShape) (v : JValue) :
    Except Exn (List (String × JValue)) :=
  match v with
  | .obj fields =>
    match zodParseFields shape fields with
    | ([], out) => .ok out
    | (issues, _) => .error { name := "ZodError", message := renderIssues issues }
  | _ => .error { name := "ZodError", message := "Expected object, received other" }

/-! ## Tool descriptors and the registry -/

/-- One content block of a tool result (`type` is `"text"`, `"image"` or
`"resource"`; the unused payload fields stay `none`). -/
structure ContentBlock where
  type : String
  text : Option String := none
  data : Option String := none
  mimeType : Option String := none
deriving Repr, BEq

/-- The value a tool's `execute` resolves to. -/
structure ToolResult where
  content : List ContentBlock
deriving Repr, BEq

/-- A tool descriptor as registered in `toolRegistry`: name, description,
object schema and the async `execute` body.  The `Env`/`ToolParams`
handle threaded by the handler's closure is invisible to the dispatch
layer and is folded into the function.  A rejected promise is an
`Except.error`. -/
structure ToolDef where
  name : String
  description : String
  schema : ZodShape
  execute : List (String × JValue) → Except Exn ToolResult

/-- The handler's `this.tools` map (name to entry, insertion ordered). -/
abbrev ToolMap : Type := List (String × ToolDef)

/-- `init()`: populate the map from the registry with `Map.set`. -/
def initTools (registry : List ToolDef) : ToolMap :=
  registry.foldl (fun m t => mapSet m t.name t) []

/-! ## Tool listing (`tools/list`) -/

/-- One property entry of a listed tool's `inputSchema.properties`. -/
structure PropListing where
  key : String
  type : String
  description : String
  enumVals : Option (List String) := none
deriving Repr, BEq

/-- `schemaToProperties`: outer type name mapped through `getZodType`,
the outer `_def.description` (or `""`), and `enum` only when the outer
node carries `_def.values`. -/
def schemaToProperties (shape : ZodShape) : List PropListing :=
  shape.map fun kv =>
    { key := kv.1, type := getZodType kv.2.ty, description := kv.2.description,
      enumVals := defValues kv.2.ty }

/-- `getRequiredFields`: keys whose zod node is not `isOptional()`. -/
def getRequiredFields (shape : ZodShape) : List String :=
  (shape.filter fun kv => ¬ zIsOptional kv.2.ty).map (·.1)

/-- One entry of the `tools/list` result. -/
structure ToolListing where
  name : String
  description : String
  schemaType : String
  properties : List PropListing
  required : List String
deriving Repr, BEq

/-- The `tools/list` result body: every map entry, in map order. -/
def listToolsResult (tools : ToolMap) : List ToolListing :=
  tools.map fun kv =>
    { name := kv.2.name, description := kv.2.description, schemaType := "object",
      properties := schemaToProperties kv.2.schema,
      required := getRequiredFields kv.2.schema }

/-! ## The dispatcher (`processMessage`) -/

/-- Inbound protocol message; absent JSON members are `none`. -/
structure MCPMessage where
  id : Option JValue := none
  method : Option JValue := none
  params : Option JValue := none

/-- `serverInfo` of the `initialize` result. -/
structure ServerInfo where
  name : String
  version : String
deriving Repr, BEq

/-- The method-specific `result` payload of a response.  `capabilities`
of the `initialize` result is the static `\x7btools: \x7b\x7d\x7d` object and carries
no data. -/
inductive ResultPayload where
  | handshake (protocolVersion : String) (serverInfo : ServerInfo)
  | toolsList (tools : List ToolListing)
  | toolResult (r : ToolResult)
deriving Repr, BEq

/-- The `data` member of an error envelope. -/
structure ErrorData where
  type : String
  stack : Option String
  details : String
deriving Repr, BEq

/-- The `error` member of a response. -/
structure ErrorPayload where
  code : Int
  message : String
  data : ErrorData
deriving Repr, BEq

/-- The catch block of `processMessage`: the fixed code `-32603`, the
falsy-guarded message and name, the stack, and `error.toString()`. -/
def mkErrorPayload (e : Exn) : ErrorPayload :=
  { code := -32603,
    message := if e.message = "" then "Internal error" else e.message,
    data := { type := if e.name = "" then "Error" else e.name,
              stack := e.stack,
              details := e.toStr } }

/-- Outbound protocol response. -/
structure MCPResponse where
  jsonrpc : String := "2.0"
  id : Option JValue := none
  result : Option ResultPayload := none
  error : Option ErrorPayload := none

/-- A record of one `execute` invocation: the tool name and the
validated arguments passed to it. -/
structure ExecCall where
  tool : String
  args : List (String × JValue)
deriving Repr, BEq

/-- `message.params?.name` as a map key: `Map.get` can only hit when the
value is a string (all map keys are strings). -/
def lookupByName (tools : ToolMap) (v : Option JValue) : Option ToolDef :=
  match v with
  | some (.str n) => assocLookup tools n
  | _ => none

/-- `message.params?.arguments || \x7b\x7d`: the raw argument value handed to
`schema.parse` (the falsy values `0`, `""`, `false` and `null` also fall
back to the empty object). -/
def rawArgsOf (msg : MCPMessage) : JValue :=
  match msg.params.bind (jget · "arguments") with
  | some v => if jsTruthy v then v else .obj []
  | none => .obj []

/-- `message.params?.name`. -/
def toolNameOf (msg : MCPMessage) : Option JValue :=
  msg.params.bind (jget · "name")

/-- The body of the `try` block of `processMessage`: the method switch.
Returns the success payload or the thrown error, together with the list
of `execute` invocations it performed. -/
def dispatchSwitch (tools : ToolMap) (msg : MCPMessage) :
    Except Exn ResultPayload × List ExecCall :=
  match msg.method with
  | some (.str "initialize") =>
    (.ok (.handshake "2024-11-05" { name := "gsc-mcp-cloud", version := "1.0.0" }), [])
  | some (.str "tools/list") =>
    (.ok (.toolsList (listToolsResult tools)), [])
  | some (.str "tools/call") =>
    let toolName : Option JValue := toolNameOf msg
    let rawArgs : JValue := rawArgsOf msg
    match lookupByName tools toolName with
    | none => (.error (mkError ("Tool not found: " ++ jsTemplateStrOpt toolName)), [])
    | some tool =>
      match zodParse tool.schema rawArgs with
      | .error e => (.error e, [])
      | .ok validatedArgs =>
        match tool.execute validatedArgs with
        | .ok r => (.ok (.toolResult r), [{ tool := tool.name, args := validatedArgs }])
        | .error e => (.error e, [{ tool := tool.name, args := validatedArgs }])
  | m => (.error (mkError ("Unknown method: " ++ jsTemplateStrOpt m)), [])

/-- `processMessage`: build the response skeleton with the echoed `id`,
run the switch inside `try`, fold a thrown error through the catch block.
The `result` member is only ever assigned as the final statement of a
successful branch, so a caught error implies `result` was never set. -/
def processMessage (tools : ToolMap) (msg : MCPMessage) :
    MCPResponse × List ExecCall :=
  match dispatchSwitch tools msg with
  | (.ok r, calls) => ({ id := msg.id, result := some r }, calls)
  | (.error e, calls) => ({ id := msg.id, error := some (mkErrorPayload e) }, calls)

/-! ## The stream transport adapter (`handleSSE`) -/

/-- One framed event pushed onto the SSE stream.  The serialization to
`data: ...\n\n` text is injective on these shapes and is abstracted; the
catch block of `handleSSE` pushes an envelope that carries no `id` and
whose `data` has no `stack` member, hence the separate constructor. -/
inductive SSEFrame where
  | comment (s : String)
  | response (r : MCPResponse)
  | transportError (code : Int) (message : String) (dtype : String) (details : String)

/-- Events of one connection's lifecycle: pushed frames and the final
release of the stream writer. -/
inductive SSEEvent where
  | push (f : SSEFrame)
  | close

/-- The inbound connection as the adapter observes it: the HTTP method
and, for POST, the result of `await request.json()` (which throws on a
malformed body). -/
structure SSERequest where
  isPost : Bool
  body : Except Exn MCPMessage

/-- The message `handleSSE` synthesizes for a body-less (non-POST)
connection. -/
def defaultListMessage : MCPMessage :=
  { id := some (.num 1), method := some (.str "tools/list") }

/-- The single `writer.write` at the end of `processMessage`: exactly one
framed response per dispatched message. -/
def processMessageWrites (tools : ToolMap) (msg : MCPMessage) : List SSEFrame :=
  [.response (processMessage tools msg).1]

/-- The trace of one `handleSSE` connection: the keep-alive comment, then
either the one dispatched response (POST with a parseable body, or the
synthesized `tools/list` for non-POST), or the transport-error frame when
body parsing throws; the `finally` block closes the writer on every
path. -/
def handleSSETrace (tools : ToolMap) (req : SSERequest) : List SSEEvent :=
  [.push (.comment " connection established")] ++
  (if req.isPost then
    match req.body with
    | .ok m => (processMessageWrites tools m).map .push
    | .error e =>
      [.push (.transportError (-32603)
        (if e.message = "" then "Internal error" else e.message)
        (if e.name = "" then "Error" else e.name)
        e.toStr)]
  else (processMessageWrites tools defaultListMessage).map .push) ++
  [.close]

/-! ## JSON serialization (`JSON.stringify`) for the tool payloads -/

/-- Escape one character as `JSON.stringify` does for the characters
occurring in this repository's data (other control characters never
occur). -/
def escChar (c : Char) : String :=
  if c = '"' then "\\\""
  else if c = '\\' then "\\\\"
  else if c = '\n' then "\\n"
  else if c = '\r' then "\\r"
  else if c = '\t' then "\\t"
  else String.singleton c

/-- `JSON.stringify` string-body escaping. -/
def jsEscape (s : String) : String :=
  String.join (s.data.map escChar)

/-- `JSON.stringify` (compact form, insertion-ordered object keys). -/
def jsonStringify : JValue → String
  | .str s => "\"" ++ jsEscape s ++ "\""
  | .num n => toString n
  | .bool b => if b then "true" else "false"
  | .null => "null"
  | .arr xs =>
    "[" ++ String.intercalate "," (xs.attach.map fun x => jsonStringify x.1) ++ "]"
  | .obj fs =>
    "\x7b" ++ String.intercalate ","
      (fs.attach.map fun kv => "\"" ++ jsEscape kv.1.1 ++ "\":" ++ jsonStringify kv.1.2)
      ++ "\x7d"
decreasing_by
  · have := List.sizeOf_lt_of_mem x.2
    simp only [JValue.arr.sizeOf_spec]
    omega
  · obtain ⟨⟨k, v⟩, h⟩ := kv
    have := List.sizeOf_lt_of_mem h
    simp only [JValue.obj.sizeOf_spec, Prod.mk.sizeOf_spec] at *
    omega

/-! ## The `search` tool (src/tools/gscActions.ts) -/

/-- `String.prototype.includes` on the character lists. -/
def charsContain (l sub : List Char) : Bool :=
  if sub.isPrefixOf l then true
  else
    match l with
    | [] => false
    | _ :: rest => charsContain rest sub

def strIncludes (s sub : String) : Bool := charsContain s.data sub.data

/-- `String.prototype.toLowerCase` (the data here is ASCII). -/
def strToLower (s : String) : String := String.mk (s.data.map Char.toLower)

/-- One searchable item of the `search` tool's static catalogue. -/
structure SearchItem where
  id : String
  title : String
  url : String
  keywords : List String
deriving Repr, BEq

/-- The static catalogue `allSearchableItems`, in source order. -/
def allSearchableItems : List SearchItem := [
  { id := "performance-overview", title := "Performance Overview - Last 28 Days",
    url := "https://search.google.com/search-console/performance",
    keywords := ["performance", "overview", "metrics", "clicks", "impressions", "ctr", "position"] },
  { id := "top-queries", title := "Top Search Queries",
    url := "https://search.google.com/search-console/performance/search-analytics",
    keywords := ["queries", "keywords", "search", "terms", "analytics"] },
  { id := "indexing-status", title := "Page Indexing Status",
    url := "https://search.google.com/search-console/index",
    keywords := ["indexing", "index", "coverage", "crawl", "pages"] },
  { id := "sitemap-status", title := "Sitemap Status and Submissions",
    url := "https://search.google.com/search-console/sitemaps",
    keywords := ["sitemap", "xml", "submission", "urls"] },
  { id := "tool:list_properties", title := "List Properties Tool - View all GSC properties",
    url := "tool://list_properties",
    keywords := ["properties", "sites", "list", "domains", "websites"] },
  { id := "tool:get_site_details", title := "Get Site Details Tool - View property details",
    url := "tool://get_site_details",
    keywords := ["site", "details", "verification", "ownership", "property"] },
  { id := "tool:add_site", title := "Add Site Tool - Add new property",
    url := "tool://add_site",
    keywords := ["add", "create", "new", "property", "site"] },
  { id := "tool:get_search_analytics", title := "Search Analytics Tool - Query performance data",
    url := "tool://get_search_analytics",
    keywords := ["analytics", "search", "performance", "queries", "pages", "dimensions"] },
  { id := "tool:compare_search_periods", title := "Compare Periods Tool - Compare two time ranges",
    url := "tool://compare_search_periods",
    keywords := ["compare", "periods", "trend", "change", "difference"] },
  { id := "tool:inspect_url_enhanced", title := "URL Inspection Tool - Check indexing status",
    url := "tool://inspect_url_enhanced",
    keywords := ["inspect", "url", "indexing", "crawl", "rich results"] },
  { id := "tool:check_indexing_issues", title := "Indexing Issues Tool - Find indexing problems",
    url := "tool://check_indexing_issues",
    keywords := ["issues", "problems", "errors", "not indexed", "canonical"] },
  { id := "tool:submit_sitemap", title := "Submit Sitemap Tool - Submit or resubmit sitemap",
    url := "tool://submit_sitemap",
    keywords := ["submit", "sitemap", "xml", "upload"] },
  { id := "tool:get_sitemaps", title := "Get Sitemaps Tool - List all sitemaps",
    url := "tool://get_sitemaps",
    keywords := ["sitemaps", "list", "xml", "status"] }]

/-- The match predicate of the `search` filter. -/
def searchItemMatches (queryLower : String) (item : SearchItem) : Bool :=
  strIncludes (strToLower item.title) queryLower ||
  strIncludes (strToLower item.id) queryLower ||
  item.keywords.any (fun kw => strIncludes kw queryLower || strIncludes queryLower kw)

/-- The success payload of `search`: matching items (capped at 20) with
the `keywords` member stripped. -/
def searchResultsObj (query : String) : JValue :=
  .obj [("results", .arr
    (((allSearchableItems.filter (searchItemMatches (strToLower query))).take 20).map
      fun it => .obj [("id", .str it.id), ("title", .str it.title), ("url", .str it.url)]))]

/-- `searchTool.execute`.  The schema guarantees `query` is a string, so
the fallback branch (a `TypeError` from `query.toLowerCase()` caught by
the tool's own try/catch) is unreachable through the dispatcher; its
message follows the host engine. -/
def searchExecute (args : List (String × JValue)) : Except Exn ToolResult :=
  match assocLookup args "query" with
  | some (.str query) =>
    .ok { content := [{ type := "text", text := some (jsonStringify (searchResultsObj query)) }] }
  | _ =>
    let payload : JValue := .obj
      [("error", .str "Cannot read properties of undefined (reading 'toLowerCase')"),
       ("query", .null)]
    .ok { content := [{ type := "text", text := some (jsonStringify payload) }] }

/-! ## The `fetch` tool (src/tools/gscActions.ts) -/

def perfOverviewText : String :=
  "\n# Google Search Console Performance Overview\n\n## Summary Statistics\n- Total Clicks: 12,543\n- Total Impressions: 245,890\n- Average CTR: 5.1%\n- Average Position: 8.3\n\n## Top Performing Pages\n1. /blog/seo-guide - 2,345 clicks\n2. /services - 1,876 clicks\n3. /products/feature - 1,234 clicks\n\n## Trends\n- Traffic increased by 15% compared to previous period\n- Mobile impressions up 23%\n- Desktop CTR improved by 0.8%\n\nThis data represents the overall performance of your website in Google Search over the last 28 days.\n"

def topQueriesText : String :=
  "\n# Top Search Queries Report\n\n## Query Performance\n1. \"seo optimization tips\" - 3,456 impressions, 178 clicks (5.1% CTR)\n2. \"digital marketing guide\" - 2,890 impressions, 145 clicks (5.0% CTR)\n3. \"website traffic analysis\" - 2,345 impressions, 156 clicks (6.7% CTR)\n4. \"content strategy\" - 1,987 impressions, 98 clicks (4.9% CTR)\n5. \"keyword research tools\" - 1,765 impressions, 112 clicks (6.3% CTR)\n\n## Query Categories\n- Informational: 65%\n- Navigational: 25%\n- Transactional: 10%\n\n## Opportunities\n- Queries ranking 11-20 with high impressions: 12 queries\n- Low CTR queries (< 3%): 8 queries\n"

def indexingStatusText : String :=
  "\n# Page Indexing Report\n\n## Indexing Summary\n- Total Pages: 456\n- Indexed Pages: 423 (92.8%)\n- Not Indexed: 33 (7.2%)\n\n## Not Indexed Reasons\n- Crawled - Currently not indexed: 15 pages\n- Discovered - Currently not indexed: 8 pages\n- Excluded by 'noindex' tag: 6 pages\n- Redirect: 4 pages\n\n## Recent Changes\n- 12 new pages indexed in last 7 days\n- 3 pages removed from index\n- 5 pages awaiting indexing\n\n## Action Items\n1. Review 15 crawled but not indexed pages\n2. Check 8 discovered pages for quality issues\n3. Verify noindex tags are intentional\n"

def sitemapStatusText : String :=
  "\n# Sitemap Status Report\n\n## Submitted Sitemaps\n1. https://example.com/sitemap.xml\n   - Status: Success\n   - Last Read: 2 days ago\n   - URLs Submitted: 423\n   - URLs Indexed: 398 (94.1%)\n\n2. https://example.com/blog-sitemap.xml\n   - Status: Success\n   - Last Read: 5 days ago\n   - URLs Submitted: 156\n   - URLs Indexed: 142 (91.0%)\n\n## Issues\n- No critical errors\n- 3 warnings for URLs with redirect chains\n\n## Recommendations\n- Update main sitemap with 12 new pages\n- Remove 5 deleted pages from blog sitemap\n- Fix redirect chains in 3 URLs\n"

/-- The mock document table of `fetchTool.execute`.  `now` stands for the
`new Date().toISOString()` calls made while the table is built. -/
def fetchDocuments (now : String) : List (String × JValue) := [
  ("performance-overview", .obj [
    ("id", .str "performance-overview"),
    ("title", .str "Performance Overview - Last 28 Days"),
    ("text", .str perfOverviewText),
    ("url", .str "https://search.google.com/search-console/performance"),
    ("metadata", .obj [("source", .str "gsc_api"), ("date_range", .str "last_28_days"),
      ("property", .str "example-website.com")])]),
  ("top-queries", .obj [
    ("id", .str "top-queries"),
    ("title", .str "Top Search Queries"),
    ("text", .str topQueriesText),
    ("url", .str "https://search.google.com/search-console/performance/search-analytics"),
    ("metadata", .obj [("source", .str "gsc_api"), ("total_queries", .num 234),
      ("date_range", .str "last_28_days")])]),
  ("indexing-status", .obj [
    ("id", .str "indexing-status"),
    ("title", .str "Page Indexing Status"),
    ("text", .str indexingStatusText),
    ("url", .str "https://search.google.com/search-console/index"),
    ("metadata", .obj [("source", .str "gsc_api"), ("last_updated", .str now),
      ("property", .str "example-website.com")])]),
  ("sitemap-status", .obj [
    ("id", .str "sitemap-status"),
    ("title", .str "Sitemap Status and Submissions"),
    ("text", .str sitemapStatusText),
    ("url", .str "https://search.google.com/search-console/sitemaps"),
    ("metadata", .obj [("source", .str "gsc_api"), ("total_sitemaps", .num 2),
      ("last_checked", .str now)])])]

/-- The not-found payload of `fetch`: the requested id interpolated into
the error message, and `Object.keys(documents)` in insertion order. -/
def fetchNotFoundObj (now : String) (idStr : String) : JValue :=
  .obj [("error", .str ("Document with ID '" ++ idStr ++ "' not found")),
        ("available_ids", .arr ((fetchDocuments now).map fun kv => .str kv.1))]

/-- `fetchTool.execute`: look the id up (JS bracket access stringifies a
non-string key) and return the document or the not-found payload; both
branches return normally. -/
def fetchExecute (now : String) (args : List (String × JValue)) : Except Exn ToolResult :=
  let idStr := jsTemplateStrOpt (assocLookup args "id")
  match assocLookup (fetchDocuments now) idStr with
  | some doc =>
    .ok { content := [{ type := "text", text := some (jsonStringify doc) }] }
  | none =>
    let text := jsonStringify (fetchNotFoundObj now idStr)
    .ok { content := [{ type := "text", text := some text }] }

/-! ## The registered tool descriptors (src/tools)

The two protocol-required tools (`search`, `fetch`) have their full
`execute` bodies modelled above.  The remaining seventeen tools call the
upstream Search Console REST API; the specification treats their bodies
as an external capability, so their `execute` is the abstract oracle
`up`, while their names, descriptions and schemas are transcribed from
the source. -/

/-- The abstract body of an upstream-calling tool. -/
abbrev UpstreamExec : Type := String → List (String × JValue) → Except Exn ToolResult

/-- One field of an object schema: key, zod node, trailing `.describe`. -/
def zfield (key : String) (t : ZodTy) (desc : String) : String × ZodValue :=
  (key, { ty := t, description := desc })

def searchToolDef : ToolDef :=
  { name := "search",
    description := "Search for relevant documents and data from Google Search Console based on a query. Returns a list of search results with IDs that can be used with the fetch tool.",
    schema := [zfield "query" (.zstring {} []) "Search query string to find relevant GSC data, pages, or reports"],
    execute := searchExecute }

def fetchToolDef (now : String) : ToolDef :=
  { name := "fetch",
    description := "Retrieve complete document content and details from Google Search Console using a document ID from search results.",
    schema := [zfield "id" (.zstring {} []) "Unique identifier for the GSC document or report to fetch"],
    execute := fetchExecute now }

/-- `z.string(\x7brequired_error, invalid_type_error\x7d).min(1, ...)`, the
site-url field shared by several property/analytics tools. -/
def siteUrlStrict : ZodTy :=
  .zstring { requiredError := some "Site URL is required", invalidTypeError := some "Site URL must be a string" }
    [.minLen 1 "Site URL cannot be empty"]

def listPropertiesDef (up : UpstreamExec) : ToolDef :=
  { name := "list_properties",
    description := "Retrieves and returns the user's Search Console properties with their permission levels.",
    schema := [],
    execute := up "list_properties" }

def addSiteDef (up : UpstreamExec) : ToolDef :=
  { name := "add_site",
    description := "Add a site to your Search Console properties. Site URL must be in exact format (e.g., https://example.com or sc-domain:example.com).",
    schema := [zfield "site_url" (.zeffects siteUrlStrict (.startsWithAny ["http://", "https://", "sc-domain:"] "Site URL must start with http://, https://, or sc-domain: (e.g., https://example.com or sc-domain:example.com)")) "The URL of the site to add (must be exact match)"],
    execute := up "add_site" }

def deleteSiteDef (up : UpstreamExec) : ToolDef :=
  { name := "delete_site",
    description := "Remove a site from your Search Console properties.",
    schema := [zfield "site_url" siteUrlStrict "The URL of the site to remove (must be exact match)"],
    execute := up "delete_site" }

def getSiteDetailsDef (up : UpstreamExec) : ToolDef :=
  { name := "get_site_details",
    description := "Get detailed information about a specific Search Console property including verification status and ownership.",
    schema := [zfield "site_url" siteUrlStrict "The URL of the site in Search Console"],
    execute := up "get_site_details" }

/-- The bounded `days` field of the analytics tools (default 28). -/
def daysField : ZodTy :=
  .zdefault (.znumber { invalidTypeError := some "Days must be a number" }
    [.minNum 1 "Days must be at least 1", .maxNum 540 "Days cannot exceed 540 (GSC API limit)"]) (.num 28)

/-- The regex-constrained `dimensions` field of `get_search_analytics`. -/
def dimensionsField : ZodTy :=
  .zdefault (.zstring {}
    [.regexCommaSepOf ["query", "page", "device", "country", "date"]
      "Dimensions must be comma-separated values from: query, page, device, country, date"])
    (.str "query")

def getSearchAnalyticsDef (up : UpstreamExec) : ToolDef :=
  { name := "get_search_analytics",
    description := "Get search analytics data for a specific property with customizable dimensions and time range.",
    schema := [
      zfield "site_url" siteUrlStrict "The URL of the site in Search Console",
      zfield "days" daysField "Number of days to look back (default: 28)",
      zfield "dimensions" dimensionsField "Dimensions to group by (query, page, device, country, date) - comma-separated"],
    execute := up "get_search_analytics" }

def getPerformanceOverviewDef (up : UpstreamExec) : ToolDef :=
  { name := "get_performance_overview",
    description := "Get a comprehensive performance overview including totals and daily trends for a property.",
    schema := [
      zfield "site_url" siteUrlStrict "The URL of the site in Search Console",
      zfield "days" daysField "Number of days to look back"],
    execute := up "get_performance_overview" }

def getAdvancedSearchAnalyticsDef (up : UpstreamExec) : ToolDef :=
  { name := "get_advanced_search_analytics",
    description := "Get advanced search analytics with sorting, filtering, pagination, and multiple search types (WEB, IMAGE, VIDEO, NEWS, DISCOVER).",
    schema := [
      zfield "site_url" (.zstring {} []) "The URL of the site in Search Console",
      zfield "start_date" (.zoptional (.zstring {} [])) "Start date in YYYY-MM-DD format",
      zfield "end_date" (.zoptional (.zstring {} [])) "End date in YYYY-MM-DD format",
      zfield "dimensions" (.zdefault (.zstring {} []) (.str "query")) "Dimensions to group by (comma-separated)",
      zfield "search_type" (.zdefault (.zenum ["WEB", "IMAGE", "VIDEO", "NEWS", "DISCOVER"]) (.str "WEB")) "Type of search results",
      zfield "row_limit" (.zdefault (.znumber {} []) (.num 100)) "Maximum rows to return (max 25000)",
      zfield "start_row" (.zdefault (.znumber {} []) (.num 0)) "Starting row for pagination",
      zfield "sort_by" (.zdefault (.zenum ["clicks", "impressions", "ctr", "position"]) (.str "clicks")) "Metric to sort by",
      zfield "sort_direction" (.zdefault (.zenum ["ascending", "descending"]) (.str "descending")) "Sort direction",
      zfield "filter_dimension" (.zoptional (.zstring {} [])) "Dimension to filter on",
      zfield "filter_operator" (.zdefault (.zenum ["contains", "equals", "notContains", "notEquals"]) (.str "contains")) "Filter operator",
      zfield "filter_expression" (.zoptional (.zstring {} [])) "Filter expression value"],
    execute := up "get_advanced_search_analytics" }

/-- A period-boundary date field of `compare_search_periods`. -/
def periodDateField (reqMsg fmtMsg : String) : ZodTy :=
  .zstring { requiredError := some reqMsg } [.regexDate fmtMsg]

def compareSearchPeriodsDef (up : UpstreamExec) : ToolDef :=
  { name := "compare_search_periods",
    description := "Compare search analytics data between two time periods to identify trends and changes.",
    schema := [
      zfield "site_url" (.zstring { requiredError := some "Site URL is required" } [.minLen 1 "Site URL cannot be empty"]) "The URL of the site in Search Console",
      zfield "period1_start" (periodDateField "Period 1 start date is required" "Period 1 start date must be in YYYY-MM-DD format") "Start date for period 1 (YYYY-MM-DD)",
      zfield "period1_end" (periodDateField "Period 1 end date is required" "Period 1 end date must be in YYYY-MM-DD format") "End date for period 1 (YYYY-MM-DD)",
      zfield "period2_start" (periodDateField "Period 2 start date is required" "Period 2 start date must be in YYYY-MM-DD format") "Start date for period 2 (YYYY-MM-DD)",
      zfield "period2_end" (periodDateField "Period 2 end date is required" "Period 2 end date must be in YYYY-MM-DD format") "End date for period 2 (YYYY-MM-DD)",
      zfield "dimensions" (.zdefault (.zstring {} []) (.str "query")) "Dimensions to group by",
      zfield "limit" (.zdefault (.znumber { invalidTypeError := some "Limit must be a number" } [.minNum 1 "Limit must be at least 1", .maxNum 1000 "Limit cannot exceed 1000"]) (.num 10)) "Number of top results to compare"],
    execute := up "compare_search_periods" }

def getSearchByPageQueryDef (up : UpstreamExec) : ToolDef :=
  { name := "get_search_by_page_query",
    description := "Get search analytics data for a specific page, broken down by the queries that led users to that page.",
    schema := [
      zfield "site_url" (.zstring { requiredError := some "Site URL is required" } [.minLen 1 "Site URL cannot be empty"]) "The URL of the site in Search Console",
      zfield "page_url" (.zstring { requiredError := some "Page URL is required" } [.minLen 1 "Page URL cannot be empty", .urlCheck "Page URL must be a valid URL"]) "The specific page URL to analyze",
      zfield "days" daysField "Number of days to look back"],
    execute := up "get_search_by_page_query" }

def inspectUrlEnhancedDef (up : UpstreamExec) : ToolDef :=
  { name := "inspect_url_enhanced",
    description := "Enhanced URL inspection to check indexing status, rich results, crawling details, and canonical URLs in Google.",
    schema := [
      zfield "site_url" (.zstring {} []) "The URL of the site in Search Console (for domain properties use sc-domain:example.com)",
      zfield "page_url" (.zstring {} []) "The specific URL to inspect"],
    execute := up "inspect_url_enhanced" }

def batchUrlInspectionDef (up : UpstreamExec) : ToolDef :=
  { name := "batch_url_inspection",
    description := "Inspect multiple URLs in batch (up to 10) to quickly check their indexing status, coverage, and rich results.",
    schema := [
      zfield "site_url" (.zstring {} []) "The URL of the site in Search Console",
      zfield "urls" (.zstring {} []) "List of URLs to inspect, one per line (max 10)"],
    execute := up "batch_url_inspection" }

def checkIndexingIssuesDef (up : UpstreamExec) : ToolDef :=
  { name := "check_indexing_issues",
    description := "Check for specific indexing issues across multiple URLs including not indexed pages, canonical conflicts, robots blocking, and fetch errors.",
    schema := [
      zfield "site_url" (.zstring {} []) "The URL of the site in Search Console",
      zfield "urls" (.zstring {} []) "List of URLs to check, one per line (max 10)"],
    execute := up "check_indexing_issues" }

def getSitemapsDef (up : UpstreamExec) : ToolDef :=
  { name := "get_sitemaps",
    description := "List all sitemaps for a specific Search Console property with their status, URL counts, and error information.",
    schema := [zfield "site_url" (.zstring {} []) "The URL of the site in Search Console"],
    execute := up "get_sitemaps" }

def submitSitemapDef (up : UpstreamExec) : ToolDef :=
  { name := "submit_sitemap",
    description := "Submit a new sitemap or resubmit an existing one to Google for processing and indexing.",
    schema := [
      zfield "site_url" (.zstring {} []) "The URL of the site in Search Console",
      zfield "sitemap_url" (.zstring {} []) "The full URL of the sitemap to submit"],
    execute := up "submit_sitemap" }

def listSitemapsEnhancedDef (up : UpstreamExec) : ToolDef :=
  { name := "list_sitemaps_enhanced",
    description := "List all sitemaps with enhanced details including submission dates, processing status, content types, and warnings.",
    schema := [
      zfield "site_url" (.zstring {} []) "The URL of the site in Search Console",
      zfield "sitemap_index" (.zoptional (.zstring {} [])) "Optional sitemap index URL to list child sitemaps"],
    execute := up "list_sitemaps_enhanced" }

def getSitemapDetailsDef (up : UpstreamExec) : ToolDef :=
  { name := "get_sitemap_details",
    description := "Get detailed information about a specific sitemap including processing status, content breakdown, and any errors or warnings.",
    schema := [
      zfield "site_url" (.zstring {} []) "The URL of the site in Search Console",
      zfield "sitemap_url" (.zstring {} []) "The full URL of the sitemap to inspect"],
    execute := up "get_sitemap_details" }

def deleteSitemapDef (up : UpstreamExec) : ToolDef :=
  { name := "delete_sitemap",
    description := "Delete (unsubmit) a sitemap from Google Search Console. This removes the sitemap from processing but doesn't affect already indexed pages.",
    schema := [
      zfield "site_url" (.zstring {} []) "The URL of the site in Search Console",
      zfield "sitemap_url" (.zstring {} []) "The full URL of the sitemap to delete"],
    execute := up "delete_sitemap" }

/-- `toolRegistry` of src/tools/index.ts, in source order: the two
protocol-required tools first, then property, analytics, inspection and
sitemap tools. -/
def toolRegistry (now : String) (up : UpstreamExec) : List ToolDef := [
  searchToolDef, fetchToolDef now,
  listPropertiesDef up, addSiteDef up, deleteSiteDef up, getSiteDetailsDef up,
  getSearchAnalyticsDef up, getPerformanceOverviewDef up,
  getAdvancedSearchAnalyticsDef up, compareSearchPeriodsDef up,
  getSearchByPageQueryDef up,
  inspectUrlEnhancedDef up, batchUrlInspectionDef up, checkIndexingIssuesDef up,
  getSitemapsDef up, submitSitemapDef up, listSitemapsEnhancedDef up,
  getSitemapDetailsDef up, deleteSitemapDef up]

/-- The registry's names in registration order. -/
def registryNames : List String := [
  "search", "fetch",
  "list_properties", "add_site", "delete_site", "get_site_details",
  "get_search_analytics", "get_performance_overview",
  "get_advanced_search_analytics", "compare_search_periods",
  "get_search_by_page_query",
  "inspect_url_enhanced", "batch_url_inspection", "check_indexing_issues",
  "get_sitemaps", "submit_sitemap", "list_sitemaps_enhanced",
  "get_sitemap_details", "delete_sitemap"]

/-! ## Session runner

`processMessage` never assigns `this.tools` (the map is written only by
`init()`), so a sequence of messages on one handler threads the map
through unchanged.  The runner makes that explicit so that order- and
idempotence-properties can quantify over prior traffic. -/

/-- Process a sequence of messages on one handler, returning the final
tool map and the responses in order. -/
def processSeq (tools : ToolMap) : List MCPMessage → ToolMap × List MCPResponse
  | [] => (tools, [])
  | m :: ms =>
    let r := (processMessage tools m).1
    let (t', rs) := processSeq tools ms
    (t', r :: rs)

/-! ## Fixtures for concrete instantiations -/

/-- A trivial upstream oracle used when a concrete registry instance is
needed. -/
def upNone : UpstreamExec := fun _ _ => .ok { content := [] }

/-- A failure a tool's `execute` can reject with. -/
def boomExn : Exn := { name := "TypeError", message := "upstream exploded", stack := some "trace" }

/-- A tool whose `execute` always rejects with `boomExn`. -/
def boomToolDef : ToolDef :=
  { name := "boom", description := "a tool whose execute rejects",
    schema := [], execute := fun _ => .error boomExn }

/-- A rejection carrying an empty message (`new Error("")`). -/
def emptyMessageExn : Exn := { name := "Error", message := "" }

/-- A tool whose `execute` rejects with an empty-message error. -/
def boomEmptyToolDef : ToolDef :=
  { name := "boom", description := "a tool whose execute rejects with an empty message",
    schema := [], execute := fun _ => .error emptyMessageExn }

/-- A `tools/call` message invoking a tool by name with given arguments. -/
def mkCallMsg (n : String) (args : JValue) : MCPMessage :=
  { id := some (.num 5), method := some (.str "tools/call"),
    params := some (.obj [("name", .str n), ("arguments", args)]) }

/-- Two descriptors sharing one name (for the duplicate-registration
behaviour). -/
def dupFirstDef : ToolDef :=
  { name := "dup", description := "first registration", schema := [],
    execute := fun _ => .ok { content := [] } }

def dupSecondDef : ToolDef :=
  { name := "dup", description := "second registration", schema := [],
    execute := fun _ => .ok { content := [] } }

/-- A body-less discovery probe (non-POST connection). -/
def probeReq : SSERequest := { isPost := false, body := .ok {} }

/-- The result `fetch` returns for an unknown document id. -/
def fetchNotFoundResult (now idStr : String) : ToolResult :=
  { content := [{ type := "text", text := some (jsonStringify (fetchNotFoundObj now idStr)) }] }

/-- A `tools/call` of `fetch` with a given id argument. -/
def fetchCallMsg (mid : Option JValue) (idStr : String) : MCPMessage :=
  { id := mid, method := some (.str "tools/call"),
    params := some (.obj [("name", .str "fetch"), ("arguments", .obj [("id", .str idStr)])]) }

/-! ## Helper lemmas -/

theorem processMessage_id_eq (tools : ToolMap) (msg : MCPMessage) :
    ((processMessage tools msg).1).id = msg.id := by
  unfold processMessage
  rcases h : dispatchSwitch tools msg with ⟨res, calls⟩
  cases res <;> rfl

/-! ## Claim theorems -/

/-- C1: for every inbound message the dispatcher writes exactly one
framed `ProtocolResponse`, and its `id` echoes the inbound `id`
verbatim, absent ids included. -/
theorem c1_exactly_one_response_with_echoed_id (tools : ToolMap) (msg : MCPMessage) :
    processMessageWrites tools msg = [.response (processMessage tools msg).1] ∧
    ((processMessage tools msg).1).id = msg.id :=
  ⟨rfl, processMessage_id_eq tools msg⟩

/-- C2: every response the dispatcher emits has exactly one of `result`
and `error` set — never both, never neither. -/
theorem c2_result_error_exclusive (tools : ToolMap) (msg : MCPMessage) :
    (((processMessage tools msg).1).result.isSome ∧ ((processMessage tools msg).1).error = none) ∨
    (((processMessage tools msg).1).result = none ∧ ((processMessage tools msg).1).error.isSome) := by
  unfold processMessage
  rcases h : dispatchSwitch tools msg with ⟨res, calls⟩
  cases res with
  | ok r => exact Or.inl ⟨rfl, rfl⟩
  | error e => exact Or.inr ⟨rfl, rfl⟩

/-- C3 (amended): when a registered tool's `execute` rejects with any
failure, the dispatcher still produces an error-shaped response with the
fixed code `-32603`, message equal to the failure's message whenever that
message is non-empty (the code substitutes `"Internal error"` for an
empty one), and diagnostic data carrying the failure's kind, stack and
stringification; no exception escapes. -/
theorem c3_tool_failure_yields_error_envelope
    (tools : ToolMap) (msg : MCPMessage) (name : String) (tool : ToolDef)
    (validated : List (String × JValue)) (e : Exn)
    (hm : msg.method = some (.str "tools/call"))
    (hn : toolNameOf msg = some (.str name))
    (hl : assocLookup tools name = some tool)
    (hv : zodParse tool.schema (rawArgsOf msg) = .ok validated)
    (hx : tool.execute validated = .error e)
    (hne : e.message ≠ "") :
    (processMessage tools msg).1 =
      { id := msg.id,
        error := some
          { code := -32603, message := e.message,
            data :=
              { type := if e.name = "" then "Error" else e.name,
                stack := e.stack, details := e.toStr } } } := by
  unfold processMessage dispatchSwitch
  rw [hm]
  simp only [lookupByName, hn, hl, hv, hx, mkErrorPayload]
  rw [if_neg hne]

/-- C3 counterexample: a tool rejecting with an empty-message error gets
the fallback message `"Internal error"`, not the failure's (empty)
message — the unqualified "message is the failure's message" is false. -/
theorem c3_empty_message_counterexample :
    boomEmptyToolDef.execute [] = .error emptyMessageExn ∧
    emptyMessageExn.message = "" ∧
    ((processMessage [("boom", boomEmptyToolDef)] (mkCallMsg "boom" (.obj []))).1.error.map
      (·.message)) = some "Internal error" ∧
    "Internal error" ≠ "" :=
  ⟨rfl, rfl, rfl, by decide⟩

/-- C3 witness: a concrete rejecting tool produces the full error
envelope. -/
theorem c3_tool_failure_witness :
    boomToolDef.execute [] = .error boomExn ∧
    (processMessage [("boom", boomToolDef)] (mkCallMsg "boom" (.obj []))).1 =
      { id := some (.num 5),
        error := some
          { code := -32603, message := "upstream exploded",
            data :=
              { type := "TypeError", stack := some "trace",
                details := "TypeError: upstream exploded" } } } :=
  ⟨rfl, by
    have h := c3_tool_failure_yields_error_envelope
      [("boom", boomToolDef)] (mkCallMsg "boom" (.obj [])) "boom" boomToolDef [] boomExn
      rfl rfl rfl rfl rfl (by decide)
    exact h⟩

/-- A non-optional field rejects an absent input with at least one
issue. -/
theorem parseField_required_missing (key : String) (t : ZodTy)
    (h : zIsOptional t = false) :
    ∃ issues, parseField key t none = .error issues ∧ issues ≠ [] := by
  induction t with
  | zstring opts checks => exact ⟨_, rfl, by simp⟩
  | znumber opts checks => exact ⟨_, rfl, by simp⟩
  | zboolean => exact ⟨_, rfl, by simp⟩
  | zenum vs => exact ⟨_, rfl, by simp⟩
  | zoptional inner ih => simp [zIsOptional] at h
  | zdefault inner d ih => simp [zIsOptional] at h
  | zeffects inner r ih =>
    have h' : zIsOptional inner = false := by simpa [zIsOptional] using h
    obtain ⟨issues, his, hne⟩ := ih h'
    exact ⟨issues, by simp [parseField, his], hne⟩

/-- A raw object missing a required field of the shape produces a
non-empty issue list. -/
theorem zodParseFields_missing_required (shape : ZodShape)
    (raw : List (String × JValue)) (key : String) (zv : ZodValue)
    (hmem : (key, zv) ∈ shape) (hreq : zIsOptional zv.ty = false)
    (hmiss : assocLookup raw key = none) :
    (zodParseFields shape raw).1 ≠ [] := by
  induction shape with
  | nil => cases hmem
  | cons head rest ih =>
    rcases head with ⟨k', zv'⟩
    rcases List.mem_cons.mp hmem with heq | hmem'
    · obtain ⟨rfl, rfl⟩ := Prod.mk.inj heq
      obtain ⟨issues, hpf, hne⟩ := parseField_required_missing key zv.ty hreq
      unfold zodParseFields
      rw [hmiss, hpf]
      intro hc
      rcases List.append_eq_nil.mp hc with ⟨h1, _⟩
      exact hne h1
    · have hrest := ih hmem'
      unfold zodParseFields
      rcases hz : zodParseFields rest raw with ⟨issues, out⟩
      rw [hz] at hrest
      cases hpf : parseField k' zv'.ty (assocLookup raw k') with
      | error is =>
        intro hc
        rcases List.append_eq_nil.mp hc with ⟨_, h2⟩
        exact hrest h2
      | ok o => cases o <;> exact hrest

/-- A raw object missing a required field fails `schema.parse` with a
`ZodError`. -/
theorem zodParse_missing_required (shape : ZodShape)
    (fields : List (String × JValue)) (key : String) (zv : ZodValue)
    (hmem : (key, zv) ∈ shape) (hreq : zIsOptional zv.ty = false)
    (hmiss : assocLookup fields key = none) :
    ∃ e : Exn, zodParse shape (.obj fields) = .error e ∧ e.name = "ZodError" := by
  have h := zodParseFields_missing_required shape fields key zv hmem hreq hmiss
  have hzp : zodParse shape (.obj fields) =
      match zodParseFields shape fields with
      | ([], out) => .ok out
      | (issues, _) => .error { name := "ZodError", message := renderIssues issues } := rfl
  rcases hz : zodParseFields shape fields with ⟨issues, out⟩
  rw [hz] at h hzp
  cases issues with
  | nil => exact absurd rfl h
  | cons i is =>
    exact ⟨{ name := "ZodError", message := renderIssues (i :: is) }, hzp, rfl⟩

/-- C4: calling a registered tool with arguments that omit a required
(non-optional, no-default) schema field never invokes `execute` (the
call list stays empty) and produces a validation-error response. -/
theorem c4_missing_required_field_blocks_execute
    (tools : ToolMap) (msg : MCPMessage) (name : String) (tool : ToolDef)
    (key : String) (zv : ZodValue) (fields : List (String × JValue))
    (hm : msg.method = some (.str "tools/call"))
    (hn : toolNameOf msg = some (.str name))
    (hl : assocLookup tools name = some tool)
    (hfield : (key, zv) ∈ tool.schema)
    (hreq : zIsOptional zv.ty = false)
    (hobj : rawArgsOf msg = .obj fields)
    (hmiss : assocLookup fields key = none) :
    (processMessage tools msg).2 = [] ∧
    ∃ p, ((processMessage tools msg).1).error = some p ∧
      p.data.type = "ZodError" ∧ p.code = -32603 := by
  obtain ⟨e, he, hname⟩ := zodParse_missing_required tool.schema fields key zv hfield hreq hmiss
  unfold processMessage dispatchSwitch
  rw [hm]
  simp only [lookupByName, hn, hl, hobj, he]
  refine ⟨?_, mkErrorPayload e, ?_, ?_, ?_⟩ <;>
    simp [mkErrorPayload, hname]

/-- C4 witness: calling the real `search` tool with empty arguments
(missing the required `query`) is rejected before `execute`. -/
theorem c4_missing_required_field_witness :
    (processMessage [("search", searchToolDef)] (mkCallMsg "search" (.obj []))).2 = [] ∧
    ∃ p, ((processMessage [("search", searchToolDef)] (mkCallMsg "search" (.obj []))).1).error = some p ∧
      p.data.type = "ZodError" ∧ p.code = -32603 :=
  c4_missing_required_field_blocks_execute
    [("search", searchToolDef)] (mkCallMsg "search" (.obj [])) "search" searchToolDef
    "query" ⟨.zstring {} [], "Search query string to find relevant GSC data, pages, or reports"⟩ []
    rfl rfl rfl (List.mem_singleton.mpr rfl) rfl rfl rfl

/-- A string with a non-empty left part stays non-empty under append. -/
theorem append_left_ne_empty (s t : String) (h : s ≠ "") : (s ++ t) ≠ "" := by
  intro hc
  apply h
  have hdata := congrArg String.data hc
  rw [String.data_append] at hdata
  rcases List.append_eq_nil.mp (by simpa using hdata) with ⟨h1, _⟩
  exact String.ext h1

/-- The catch block folds the tool-not-found error into this payload. -/
theorem tool_not_found_payload (name : String) :
    mkErrorPayload (mkError ("Tool not found: " ++ name)) =
      { code := -32603, message := "Tool not found: " ++ name,
        data := { type := "Error", stack := none,
                  details := "Error: Tool not found: " ++ name } } := by
  have hne : ("Tool not found: " ++ name) ≠ "" :=
    append_left_ne_empty _ _ (by decide)
  have hns : ("Error" : String) ≠ "" := by decide
  have hdet : ("Error" ++ ": ") ++ ("Tool not found: " ++ name) =
      "Error: Tool not found: " ++ name := by
    rw [← String.append_assoc]
    rfl
  unfold mkErrorPayload mkError Exn.toStr
  rw [if_neg hne, if_neg hns, if_neg hns, if_neg hne, hdet]

/-- C5: a `tools/call` naming an unregistered tool yields the
tool-not-found error envelope — the requested name appears in the
message and inside the `data.details` string — and no `execute` runs. -/
theorem c5_unknown_tool_not_found
    (tools : ToolMap) (msg : MCPMessage) (name : String)
    (hm : msg.method = some (.str "tools/call"))
    (hn : toolNameOf msg = some (.str name))
    (hl : assocLookup tools name = none) :
    (processMessage tools msg).2 = [] ∧
    ((processMessage tools msg).1).error =
      some { code := -32603, message := "Tool not found: " ++ name,
             data := { type := "Error", stack := none,
                       details := "Error: Tool not found: " ++ name } } ∧
    ∃ pre post, ("Error: Tool not found: " ++ name) = pre ++ name ++ post := by
  refine ⟨?_, ?_, "Error: Tool not found: ", "", by simp⟩
  · unfold processMessage dispatchSwitch
    rw [hm]
    simp only [lookupByName, hn, hl]
  · unfold processMessage dispatchSwitch
    rw [hm]
    simp only [lookupByName, hn, hl, jsTemplateStrOpt, jsTemplateStr]
    rw [tool_not_found_payload name]

/-- C5 witness: calling the unregistered name `nope` on a registry
holding only `search`. -/
theorem c5_unknown_tool_witness :
    (processMessage [("search", searchToolDef)] (mkCallMsg "nope" (.obj []))).2 = [] ∧
    ((processMessage [("search", searchToolDef)] (mkCallMsg "nope" (.obj []))).1).error =
      some { code := -32603, message := "Tool not found: " ++ "nope",
             data := { type := "Error", stack := none,
                       details := "Error: Tool not found: " ++ "nope" } } ∧
    ∃ pre post, ("Error: Tool not found: " ++ "nope") = pre ++ "nope" ++ post :=
  c5_unknown_tool_not_found [("search", searchToolDef)] (mkCallMsg "nope" (.obj []))
    "nope" rfl rfl rfl

/-- Dispatching never mutates the tool map: a message sequence threads
the map through unchanged. -/
theorem processSeq_fst (tools : ToolMap) (msgs : List MCPMessage) :
    (processSeq tools msgs).1 = tools := by
  induction msgs with
  | nil => rfl
  | cons m ms ih => simpa [processSeq] using ih

/-- C6: `tools/list` always returns the full registry in registration
order with the protocol-required `search` and `fetch` first, whatever
traffic preceded it, and two listings on states reached by any two prior
message sequences are identical. -/
theorem c6_listing_full_ordered_idempotent (now : String) (up : UpstreamExec)
    (msgs₁ msgs₂ : List MCPMessage) :
    (processSeq (initTools (toolRegistry now up)) msgs₁).1 = initTools (toolRegistry now up) ∧
    (listToolsResult (initTools (toolRegistry now up))).map (·.name) = registryNames ∧
    registryNames.take 2 = ["search", "fetch"] ∧
    (processMessage (processSeq (initTools (toolRegistry now up)) msgs₁).1 defaultListMessage).1 =
      (processMessage (processSeq (initTools (toolRegistry now up)) msgs₂).1 defaultListMessage).1 := by
  refine ⟨processSeq_fst _ _, ?_, by decide, ?_⟩
  · simp [initTools, toolRegistry, mapSet, listToolsResult, registryNames,
      searchToolDef, fetchToolDef,
      listPropertiesDef, addSiteDef, deleteSiteDef, getSiteDetailsDef,
      getSearchAnalyticsDef, getPerformanceOverviewDef, getAdvancedSearchAnalyticsDef,
      compareSearchPeriodsDef, getSearchByPageQueryDef, inspectUrlEnhancedDef,
      batchUrlInspectionDef, checkIndexingIssuesDef, getSitemapsDef, submitSitemapDef,
      listSitemapsEnhancedDef, getSitemapDetailsDef, deleteSitemapDef]
  · rw [processSeq_fst, processSeq_fst]

/-- Appending a binding for a different key does not change a lookup. -/
theorem assocLookup_append_ne (raw : List (String × JValue)) (key k : String)
    (v : JValue) (h : k ≠ key) :
    assocLookup (raw ++ [(key, v)]) k = assocLookup raw k := by
  induction raw with
  | nil => simp [assocLookup, Ne.symm h]
  | cons hd tl ih =>
    rcases hd with ⟨k', v'⟩
    by_cases hk : k' = k <;> simp [assocLookup, hk, ih]

/-- Parsing only consults the keys of the shape: an extra binding for a
key outside the shape changes nothing. -/
theorem zodParseFields_ignores_extra (shape : ZodShape)
    (raw : List (String × JValue)) (key : String) (v : JValue)
    (hkey : key ∉ shape.map (·.1)) :
    zodParseFields shape (raw ++ [(key, v)]) = zodParseFields shape raw := by
  induction shape with
  | nil => rfl
  | cons hd rest ih =>
    rcases hd with ⟨k', zv'⟩
    have hk' : k' ≠ key := by
      intro h
      exact hkey (by simp [h])
    have hrest : key ∉ rest.map (·.1) := by
      intro h
      exact hkey (by simp [h])
    unfold zodParseFields
    rw [ih hrest, assocLookup_append_ne raw key k' v hk']

/-- Every key of the validated output is a key of the shape (unknown
keys are stripped). -/
theorem zodParseFields_out_keys (shape : ZodShape) (raw : List (String × JValue)) :
    ∀ kv ∈ (zodParseFields shape raw).2, kv.1 ∈ shape.map (·.1) := by
  induction shape with
  | nil =>
    intro kv h
    simp [zodParseFields] at h
  | cons hd rest ih =>
    rcases hd with ⟨k', zv'⟩
    intro kv hkv
    have ih' := ih kv
    unfold zodParseFields at hkv
    rcases hz : zodParseFields rest raw with ⟨issues, out⟩
    rw [hz] at hkv ih'
    cases hpf : parseField k' zv'.ty (assocLookup raw k') with
    | error is =>
      rw [hpf] at hkv
      exact List.mem_cons_of_mem _ (ih' hkv)
    | ok o =>
      cases o with
      | none =>
        rw [hpf] at hkv
        exact List.mem_cons_of_mem _ (ih' hkv)
      | some v =>
        rw [hpf] at hkv
        rcases List.mem_cons.mp hkv with rfl | hkv'
        · simp
        · exact List.mem_cons_of_mem _ (ih' hkv')

/-- C7 (amended): unknown extra argument fields never cause a validation
error — they are simply ignored — but they are not passed through: the
validated arguments `execute` receives contain only schema-declared
keys (zod object schemas strip unknown keys by default). -/
theorem c7_extra_fields_ignored_and_stripped (shape : ZodShape)
    (raw : List (String × JValue)) (key : String) (v : JValue)
    (hkey : key ∉ shape.map (·.1)) :
    zodParse shape (.obj (raw ++ [(key, v)])) = zodParse shape (.obj raw) ∧
    ∀ out, zodParse shape (.obj raw) = .ok out → ∀ kv ∈ out, kv.1 ∈ shape.map (·.1) := by
  have hred : ∀ fields, zodParse shape (.obj fields) =
      match zodParseFields shape fields with
      | ([], out) => .ok out
      | (issues, _) => .error { name := "ZodError", message := renderIssues issues } :=
    fun _ => rfl
  constructor
  · rw [hred, hred, zodParseFields_ignores_extra shape raw key v hkey]
  · intro out hok kv hkv
    rw [hred] at hok
    rcases hz : zodParseFields shape raw with ⟨issues, outs⟩
    rw [hz] at hok
    cases issues with
    | nil =>
      injection hok with hout
      subst hout
      have := zodParseFields_out_keys shape raw kv
      rw [hz] at this
      exact this hkv
    | cons i is => cases hok

/-- C7 counterexample: with the real `search` schema, an extra field
validates without error but is stripped — `execute` receives only
`query`, so extra fields are not passed through as the claim states. -/
theorem c7_passthrough_counterexample :
    zodParse searchToolDef.schema (.obj [("query", .str "a"), ("extra", .str "b")]) =
      .ok [("query", .str "a")] ∧
    (processMessage [("search", searchToolDef)]
        (mkCallMsg "search" (.obj [("query", .str "a"), ("extra", .str "b")]))).2 =
      [{ tool := "search", args := [("query", .str "a")] }] ∧
    assocLookup [("query", JValue.str "a")] "extra" = none :=
  ⟨rfl, rfl, rfl⟩

/-- C7 witness: the amended statement at the `search` schema with one
extra field. -/
theorem c7_extra_fields_witness :
    zodParse searchToolDef.schema
        (.obj ([("query", JValue.str "a")] ++ [("extra", JValue.str "b")])) =
      zodParse searchToolDef.schema (.obj [("query", JValue.str "a")]) ∧
    ∀ kv ∈ [("query", JValue.str "a")], kv.1 ∈ searchToolDef.schema.map (·.1) :=
  ⟨(c7_extra_fields_ignored_and_stripped searchToolDef.schema [("query", JValue.str "a")]
      "extra" (JValue.str "b") (by decide)).1,
   fun kv hkv =>
    (c7_extra_fields_ignored_and_stripped searchToolDef.schema [("query", JValue.str "a")]
      "extra" (JValue.str "b") (by decide)).2 [("query", JValue.str "a")] rfl kv hkv⟩

/-- Keys after a `Map.set`: unchanged when the key is present, appended
otherwise. -/
theorem keys_mapSet (m : List (String × α)) (k : String) (v : α) :
    (mapSet m k v).map (·.1) =
      if k ∈ m.map (·.1) then m.map (·.1) else m.map (·.1) ++ [k] := by
  induction m with
  | nil => simp [mapSet]
  | cons hd tl ih =>
    rcases hd with ⟨k', v'⟩
    by_cases hk : k' = k
    · subst hk
      simp [mapSet]
    · by_cases hm : k ∈ tl.map (·.1) <;>
        simp [mapSet, hk, ih, hm, Ne.symm hk]

/-- `Map.set` preserves key uniqueness. -/
theorem keys_nodup_mapSet (m : List (String × α)) (k : String) (v : α)
    (h : (m.map (·.1)).Nodup) : ((mapSet m k v).map (·.1)).Nodup := by
  rw [keys_mapSet]
  by_cases hm : k ∈ m.map (·.1)
  · simpa [hm] using h
  · simp [hm, List.nodup_append, h]

/-- The registration fold preserves key uniqueness. -/
theorem initFold_keys_nodup (regs : List ToolDef) :
    ∀ m : List (String × ToolDef), (m.map (·.1)).Nodup →
      ((regs.foldl (fun m t => mapSet m t.name t) m).map (·.1)).Nodup := by
  induction regs with
  | nil => intro m h; exact h
  | cons t ts ih => intro m h; exact ih _ (keys_nodup_mapSet m t.name t h)

/-- The key just set is present. -/
theorem mem_keys_mapSet_self (m : List (String × α)) (k : String) (v : α) :
    k ∈ (mapSet m k v).map (·.1) := by
  rw [keys_mapSet]
  by_cases hm : k ∈ m.map (·.1) <;> simp [hm]

/-- `Map.set` keeps every existing key. -/
theorem mem_keys_mapSet_of_mem (m : List (String × α)) (k k' : String) (v : α)
    (h : k' ∈ m.map (·.1)) : k' ∈ (mapSet m k v).map (·.1) := by
  rw [keys_mapSet]
  by_cases hm : k ∈ m.map (·.1) <;> simp [hm, h]

/-- The registration fold keeps every existing key. -/
theorem mem_keys_initFold (regs : List ToolDef) :
    ∀ (m : List (String × ToolDef)) (k' : String), k' ∈ m.map (·.1) →
      k' ∈ ((regs.foldl (fun m t => mapSet m t.name t) m).map (·.1)) := by
  induction regs with
  | nil => intro m k' h; exact h
  | cons t ts ih => intro m k' h; exact ih _ k' (mem_keys_mapSet_of_mem m t.name k' t h)

/-- Every registered descriptor's name ends up among the map's keys. -/
theorem registered_name_mem_keys (regs : List ToolDef) :
    ∀ (m : List (String × ToolDef)) (t : ToolDef), t ∈ regs →
      t.name ∈ ((regs.foldl (fun m t => mapSet m t.name t) m).map (·.1)) := by
  induction regs with
  | nil => intro m t h; cases h
  | cons hd ts ih =>
    intro m t ht
    rcases List.mem_cons.mp ht with rfl | h'
    · exact mem_keys_initFold ts _ _ (mem_keys_mapSet_self m t.name t)
    · exact ih _ t h'

/-- C8 (amended): `init` never fails; a duplicate name silently
overwrites the earlier entry (last registration wins, original position
kept), and the resulting map holds every registered name exactly once. -/
theorem c8_registry_names_unique (registry : List ToolDef) :
    ((initTools registry).map (·.1)).Nodup ∧
    ∀ t ∈ registry, t.name ∈ (initTools registry).map (·.1) := by
  constructor
  · exact initFold_keys_nodup registry [] (by simp)
  · intro t ht
    exact registered_name_mem_keys registry [] t ht

/-- C8 counterexample: registering a second descriptor under an
already-present name does not fail with any error — `init` completes and
the duplicate silently overwrites the first entry. -/
theorem c8_duplicate_overwrites_counterexample :
    ((initTools [dupFirstDef, dupSecondDef]).map fun kv => (kv.1, kv.2.description)) =
      [("dup", "second registration")] ∧
    (initTools [dupFirstDef, dupSecondDef]).length = 1 :=
  ⟨rfl, rfl⟩

/-- C8 witness: uniqueness holds on the duplicate-name registry. -/
theorem c8_registry_names_unique_witness :
    ((initTools [dupFirstDef, dupSecondDef]).map (·.1)).Nodup ∧
    dupFirstDef.name ∈ (initTools [dupFirstDef, dupSecondDef]).map (·.1) :=
  ⟨(c8_registry_names_unique [dupFirstDef, dupSecondDef]).1,
   (c8_registry_names_unique [dupFirstDef, dupSecondDef]).2 dupFirstDef (by simp)⟩

/-- C9: a body-less (non-POST) connection gets the synthesized
`tools/list` dispatched: the trace is exactly the keep-alive comment,
one framed response, then close; and every connection's trace — body or
not, parse failure included — ends with the writer being closed. -/
theorem c9_probe_lists_and_always_closes (tools : ToolMap) (req : SSERequest) :
    (req.isPost = false →
      handleSSETrace tools req =
        [.push (.comment " connection established"),
         .push (.response (processMessage tools defaultListMessage).1),
         .close]) ∧
    (handleSSETrace tools req).getLast? = some .close := by
  constructor
  · intro h
    unfold handleSSETrace
    rw [h]
    rfl
  · unfold handleSSETrace
    rcases req with ⟨isPost, body⟩
    cases isPost
    · rfl
    · cases body <;> rfl

/-- C9 witness: the concrete bare probe on the empty map. -/
theorem c9_probe_witness :
    handleSSETrace [] probeReq =
      [.push (.comment " connection established"),
       .push (.response (processMessage [] defaultListMessage).1),
       .close] ∧
    (handleSSETrace [] probeReq).getLast? = some .close :=
  ⟨(c9_probe_lists_and_always_closes [] probeReq).1 rfl,
   (c9_probe_lists_and_always_closes [] probeReq).2⟩

/-- An id outside the four documents misses the table. -/
theorem fetchDocuments_lookup_none (now idStr : String)
    (h : idStr ∉ ["performance-overview", "top-queries", "indexing-status", "sitemap-status"]) :
    assocLookup (fetchDocuments now) idStr = none := by
  simp only [List.mem_cons, List.not_mem_nil, or_false, not_or] at h
  obtain ⟨h1, h2, h3, h4⟩ := h
  simp [fetchDocuments, assocLookup, Ne.symm h1, Ne.symm h2, Ne.symm h3, Ne.symm h4]

/-- `fetch` on an unknown id returns (does not throw) the not-found
payload. -/
theorem fetchExecute_unknown_id (now idStr : String)
    (h : idStr ∉ ["performance-overview", "top-queries", "indexing-status", "sitemap-status"]) :
    fetchExecute now [("id", .str idStr)] = .ok (fetchNotFoundResult now idStr) := by
  unfold fetchExecute
  have harg : assocLookup [("id", JValue.str idStr)] "id" = some (JValue.str idStr) := rfl
  rw [harg]
  simp only [jsTemplateStrOpt]
  rw [show jsTemplateStr (JValue.str idStr) = idStr from by simp [jsTemplateStr]]
  rw [fetchDocuments_lookup_none now idStr h]
  rfl

set_option maxHeartbeats 2000000 in
/-- Looking `fetch` up in the initialized registry map. -/
theorem initRegistry_lookup_fetch (now : String) (up : UpstreamExec) :
    assocLookup (initTools (toolRegistry now up)) "fetch" = some (fetchToolDef now) := by
  simp [initTools, toolRegistry, mapSet, assocLookup, searchToolDef, fetchToolDef,
    listPropertiesDef, addSiteDef, deleteSiteDef, getSiteDetailsDef,
    getSearchAnalyticsDef, getPerformanceOverviewDef, getAdvancedSearchAnalyticsDef,
    compareSearchPeriodsDef, getSearchByPageQueryDef, inspectUrlEnhancedDef,
    batchUrlInspectionDef, checkIndexingIssuesDef, getSitemapsDef, submitSitemapDef,
    listSitemapsEnhancedDef, getSitemapDetailsDef, deleteSitemapDef]

/-- `fetch`'s schema accepts a string id unchanged. -/
theorem fetch_schema_parse (now idStr : String) :
    zodParse (fetchToolDef now).schema (.obj [("id", JValue.str idStr)]) =
      .ok [("id", JValue.str idStr)] := by
  simp [fetchToolDef, zfield, zodParse, zodParseFields, parseField, assocLookup]

/-- Dispatching a `fetch` call on any map whose `fetch` entry is the real
descriptor: the tool result is wrapped as `result`. -/
theorem dispatch_fetch_unknown (t : ToolMap) (now idStr : String) (mid : Option JValue)
    (ht : assocLookup t "fetch" = some (fetchToolDef now))
    (hunknown : idStr ∉ ["performance-overview", "top-queries", "indexing-status", "sitemap-status"]) :
    processMessage t (fetchCallMsg mid idStr) =
      ({ id := mid, result := some (.toolResult (fetchNotFoundResult now idStr)) },
       [{ tool := "fetch", args := [("id", .str idStr)] }]) := by
  have hzp : zodParse
      [zfield "id" (ZodTy.zstring {} []) "Unique identifier for the GSC document or report to fetch"]
      (JValue.obj [("id", JValue.str idStr)]) = .ok [("id", JValue.str idStr)] := by
    simp [zfield, zodParse, zodParseFields, parseField, assocLookup]
  unfold processMessage dispatchSwitch
  simp [fetchCallMsg, toolNameOf, rawArgsOf, jget, assocLookup, jsTruthy,
    lookupByName, ht, fetchToolDef, hzp, fetchExecute_unknown_id now idStr hunknown]

/-- C10: for every id outside the four known documents, `fetch` returns
normally with a success-shaped result of exactly one text block whose
JSON payload names the requested id in its error message and lists the
available ids; the dispatcher wraps it as `result`, not as an error. -/
theorem c10_fetch_unknown_id_result_not_error
    (now : String) (up : UpstreamExec) (idStr : String) (mid : Option JValue)
    (hunknown : idStr ∉ ["performance-overview", "top-queries", "indexing-status", "sitemap-status"]) :
    fetchExecute now [("id", .str idStr)] = .ok (fetchNotFoundResult now idStr) ∧
    fetchNotFoundObj now idStr =
      .obj [("error", .str ("Document with ID '" ++ idStr ++ "' not found")),
            ("available_ids", .arr [.str "performance-overview", .str "top-queries",
              .str "indexing-status", .str "sitemap-status"])] ∧
    ((processMessage (initTools (toolRegistry now up)) (fetchCallMsg mid idStr)).1).result =
      some (.toolResult (fetchNotFoundResult now idStr)) ∧
    ((processMessage (initTools (toolRegistry now up)) (fetchCallMsg mid idStr)).1).error = none := by
  have hdisp := dispatch_fetch_unknown (initTools (toolRegistry now up)) now idStr mid
    (initRegistry_lookup_fetch now up) hunknown
  exact ⟨fetchExecute_unknown_id now idStr hunknown, rfl, by rw [hdisp], by rw [hdisp]⟩

/-- C10 witness: the concrete unknown id `nope`. -/
theorem c10_fetch_unknown_id_witness :
    fetchExecute "2025-01-01T00:00:00.000Z" [("id", .str "nope")] =
      .ok (fetchNotFoundResult "2025-01-01T00:00:00.000Z" "nope") ∧
    fetchNotFoundObj "2025-01-01T00:00:00.000Z" "nope" =
      .obj [("error", .str ("Document with ID '" ++ "nope" ++ "' not found")),
            ("available_ids", .arr [.str "performance-overview", .str "top-queries",
              .str "indexing-status", .str "sitemap-status"])] ∧
    ((processMessage (initTools (toolRegistry "2025-01-01T00:00:00.000Z" upNone))
        (fetchCallMsg none "nope")).1).result =
      some (.toolResult (fetchNotFoundResult "2025-01-01T00:00:00.000Z" "nope")) ∧
    ((processMessage (initTools (toolRegistry "2025-01-01T00:00:00.000Z" upNone))
        (fetchCallMsg none "nope")).1).error = none :=
  c10_fetch_unknown_id_result_not_error "2025-01-01T00:00:00.000Z" upNone "nope" none
    (by decide)
